import Mathlib

/-!
Shallow embedding of `src/app.py` (the ADU permit chatbot Streamlit app).

The app is a script that is re-executed on every user interaction ("rerun"),
with `st.session_state` persisting across reruns.  We model one rerun as a
pure step function `runScript` over an explicit `AppState`, with the remote
API calls of a rerun recorded in order as a list of `Event`s, and remote
nondeterminism (retrieve success, run outcome, fresh ids, folder listings)
supplied as a `RerunInput`.

A file-system folder is modelled as `Option (List String)`: `none` is a
missing folder, `some files` a folder whose `os.listdir` returns `files`;
`os.path.exists (dir/name)` becomes membership of `name` in `files`.
-/

namespace ADU

/-- `LETTERS_DIR = os.path.join("data", "Letters")` (app.py line 16). -/
def LETTERS_DIR : String := "data/Letters"

/-- `ORDINANCES_DIR = os.path.join("data", "Ordinances")` (app.py line 17). -/
def ORDINANCES_DIR : String := "data/Ordinances"

/-- The reserved statewide filename (app.py line 104). -/
def statewide_file : String := "ADUHandbookUpdate.pdf"

/-- `os.path.join dir filename` for a relative filename on a posix path. -/
def joinPath (dir file : String) : String := dir ++ "/" ++ file

/-- The Applicant instruction text of `get_instructions` (app.py lines 36-43),
with Python's adjacent string literals concatenated. -/
def applicantInstructions : String :=
  "You are a chatbot for ADU permit discussions. Your role is that of an applicant "
  ++ "advocating for an ADU permit by persuasively citing the city's ADU ordinance. "
  ++ "For example, if asked, 'I'm preparing my application for an ADU permit. How does the ordinance justify an increased number of ADUs in my neighborhood?', "
  ++ "you should respond with a persuasive argument such as: 'According to section 3.2 of the ADUHandbookUpdate.pdf, the ordinance allows...'. "
  ++ "The uploaded documents include letters and ordinances, with the ADUHandbookUpdate.pdf (the statewide file) taking precedence over individual files. "
  ++ "Whenever possible, provide specific citations to ordinance sections that support the permit application."

/-- The Planner instruction text of `get_instructions` (app.py lines 45-52). -/
def plannerInstructions : String :=
  "You are a chatbot for ADU permit discussions. Your role is that of a city planner who is skeptical about an increased number of ADUs. "
  ++ "Your responses should be antagonistic, highlighting potential negative impacts of ADUs and questioning the applicant's interpretation of the ordinance. "
  ++ "For example, if asked, 'I'm preparing my application for an ADU permit. How does the ordinance justify an increased number of ADUs in my neighborhood?', "
  ++ "you should respond with a critical counterargument such as: 'The ordinance in section 3.2 of the ADUHandbookUpdate.pdf is ambiguous and does not fully address community impacts.' "
  ++ "The uploaded documents include letters and ordinances, with the ADUHandbookUpdate.pdf (the statewide file) taking precedence over individual files. "
  ++ "Whenever possible, provide specific citations to ordinance sections that support your perspective."

/-- `get_instructions(role)` (app.py lines 34-52): the `if role == "Applicant"`
branch returns the applicant text, the `else` branch (commented `# Planner`)
returns the planner text for every other string. -/
def get_instructions (role : String) : String :=
  if role = "Applicant" then applicantInstructions else plannerInstructions

/-- Python `str.lower()` (ASCII case folding, character by character). -/
def pyLower (s : String) : String := ⟨s.data.map Char.toLower⟩

/-- Python `str.endswith(suffix)`. -/
def pyEndsWith (s suffix : String) : Bool := suffix.data.isSuffixOf s.data

/-- Python `str.strip()`: drop leading and trailing whitespace. -/
def pyStrip (s : String) : String :=
  ⟨((s.data.dropWhile Char.isWhitespace).reverse.dropWhile Char.isWhitespace).reverse⟩

/-- `filename.lower().endswith(".pdf")` (app.py lines 99 and 111). -/
def isPdfName (filename : String) : Bool := pyEndsWith (pyLower filename) ".pdf"

/-- `get_pdf_file_paths()` (app.py lines 89-113) over the two folder states.
The code first appends every `.pdf` of the letters folder, then inserts the
statewide ordinance path at index 0 if that file exists, then appends every
other `.pdf` of the ordinances folder. -/
def get_pdf_file_paths (letters ordinances : Option (List String)) : List String :=
  let pdf1 : List String :=
    match letters with
    | none => []
    | some files => (files.filter isPdfName).map (fun f => joinPath LETTERS_DIR f)
  match ordinances with
  | none => pdf1
  | some files =>
    let withStatewide : List String :=
      if statewide_file ∈ files then joinPath ORDINANCES_DIR statewide_file :: pdf1 else pdf1
    withStatewide ++
      (files.filter (fun f => isPdfName f && f ≠ statewide_file)).map
        (fun f => joinPath ORDINANCES_DIR f)

/-- The letters-folder contribution to the resolved document set: every `.pdf`
of the letters folder, in listing order. -/
def lettersPart (letters : Option (List String)) : List String :=
  match letters with
  | none => []
  | some files => (files.filter isPdfName).map (fun f => joinPath LETTERS_DIR f)

/-- The statewide contribution: the statewide path when that file exists. -/
def statewidePart (ordinances : Option (List String)) : List String :=
  match ordinances with
  | none => []
  | some files =>
    if statewide_file ∈ files then [joinPath ORDINANCES_DIR statewide_file] else []

/-- The non-statewide ordinances contribution: every other `.pdf` of the
ordinances folder, in listing order. -/
def otherOrdinancesPart (ordinances : Option (List String)) : List String :=
  match ordinances with
  | none => []
  | some files =>
    (files.filter (fun f => isPdfName f && f ≠ statewide_file)).map
      (fun f => joinPath ORDINANCES_DIR f)

/-- The document order the spec claims (section 3, "Document Set"):
`[statewide ordinance?] + [other ordinances] + [letters]`.  Stated from the
spec's words, to be compared with `get_pdf_file_paths`. -/
def specClaimedOrder (letters ordinances : Option (List String)) : List String :=
  statewidePart ordinances ++ otherOrdinancesPart ordinances ++ lettersPart letters

/-- One message returned by `client.beta.threads.messages.list`: its `content`
is the list of text values of its content blocks. -/
structure ThreadMessage where
  content : List String
deriving DecidableEq

/-- The outcome of one remote reply cycle (thread creation, run submission,
polling, message retrieval): either every remote call returned and the run's
message list is `msgs`, or some call raised an exception whose string form is
`desc`. -/
inductive RemoteOutcome where
  | success (msgs : List ThreadMessage)
  | failure (desc : String)
deriving DecidableEq

/-- `generate_response(messages)` (app.py lines 118-136).  No exception is
caught inside it: a raised remote error propagates (`Except.error`).  On
success, a non-empty message list yields `messages_list[0].content[0].text.value.strip()`
(an empty content list would raise an IndexError), an empty list yields the
literal fallback string. -/
def generate_response (o : RemoteOutcome) : Except String String :=
  match o with
  | .failure desc => .error desc
  | .success msgs =>
    match msgs with
    | [] => .ok "No response received from the assistant."
    | m :: _ =>
      match m.content with
      | [] => .error "list index out of range"
      | c :: _ => .ok (pyStrip c)

/-- The remote assistant object held in `st.session_state.assistant`:
identifier, instruction text, and the vector-store id its `file_search` tool
resources reference (`none` until first attached). -/
structure Assistant where
  id : String
  instructions : String
  toolResources : Option String
deriving DecidableEq

/-- One transcript entry of `st.session_state.messages`. -/
structure Turn where
  role : String
  content : String
deriving DecidableEq

/-- The greeting turn seeding the transcript (app.py lines 70-72). -/
def greetingTurn : Turn :=
  ⟨"assistant", "How can I assist you with your ADU permit application?"⟩

/-- The `st.session_state` slots that persist across reruns. -/
structure AppState where
  vector_store : Option String
  current_role : String
  assistant : Assistant
  messages : List Turn
deriving DecidableEq

/-- Everything one rerun of the script consumes from outside the session
state: the sidebar role selection, the chat input (`none` when no message was
submitted), the persisted vector-store id in `st.secrets` and whether its
remote retrieve succeeds, the fresh ids a create call would return, the two
folder states, and the remote outcome a `generate_response` call would see. -/
structure RerunInput where
  role_selection : String
  prompt : Option String
  newAssistantId : String
  storedId : Option String
  retrieveOk : Bool
  newVsId : String
  letters : Option (List String)
  ordinances : Option (List String)
  outcome : RemoteOutcome
deriving DecidableEq

/-- The remote API calls a rerun makes, in program order. -/
inductive Event where
  | createAssistant (id : String)
  | updateInstructions (assistantId : String) (text : String)
  | retrieveVS (id : String) (ok : Bool)
  | createVS (id : String)
  | uploadBatch (vsId : String) (files : List String)
  | attachVS (assistantId : String) (vsId : String)
  | generate (toolRes : Option String) (o : RemoteOutcome)
deriving DecidableEq

/-- Session-state setup (app.py lines 57-72): on a fresh session every slot is
seeded — `vector_store := None`, `current_role := role_selection`, a new
assistant created with the current role's instructions and a `file_search`
tool with no resources yet, and the transcript seeded with the greeting turn.
On a later rerun every key is present and nothing happens. -/
def initPhase (s : Option AppState) (i : RerunInput) : AppState × List Event :=
  match s with
  | some st => (st, [])
  | none =>
    ({ vector_store := none
       current_role := i.role_selection
       assistant :=
         { id := i.newAssistantId
           instructions := get_instructions i.role_selection
           toolResources := none }
       messages := [greetingTurn] },
     [Event.createAssistant i.newAssistantId])

/-- Role reconciliation (app.py lines 77-84): when the recorded role differs
from the sidebar selection, one `assistants.update` call pushes the new
instructions to the same assistant id and the new role is recorded; otherwise
nothing happens. -/
def rolePhase (st : AppState) (i : RerunInput) : AppState × List Event :=
  if st.current_role ≠ i.role_selection then
    ({ st with
        assistant := { st.assistant with instructions := get_instructions i.role_selection }
        current_role := i.role_selection },
     [Event.updateInstructions st.assistant.id (get_instructions i.role_selection)])
  else (st, [])

/-- Vector-store setup (app.py lines 141-171), run only while
`st.session_state.vector_store is None`: try to retrieve the persisted id from
secrets (a failure is written to the sidebar and falls through), otherwise
create a new store and, when the resolved document set is non-empty, upload it
as one polled batch; finally store the handle and update the assistant's
`file_search` tool resources to reference it. -/
def vsPhase (st : AppState) (i : RerunInput) : AppState × List Event :=
  match st.vector_store with
  | some _ => (st, [])
  | none =>
    let fetched : Option String × List Event :=
      match i.storedId with
      | some sid =>
        if i.retrieveOk then (some sid, [Event.retrieveVS sid true])
        else (none, [Event.retrieveVS sid false])
      | none => (none, [])
    let made : String × List Event :=
      match fetched.1 with
      | some v => (v, [])
      | none =>
        let files := get_pdf_file_paths i.letters i.ordinances
        (i.newVsId,
         Event.createVS i.newVsId ::
           (if files ≠ [] then [Event.uploadBatch i.newVsId files] else []))
    ({ st with
        vector_store := some made.1
        assistant := { st.assistant with toolResources := some made.1 } },
     fetched.2 ++ made.2 ++ [Event.attachVS st.assistant.id made.1])

/-- The chat-input handler (app.py lines 183-193).  `if prompt := st.chat_input(...)`
is Python truthiness: no submission or an empty string does nothing.  The user
turn is appended outside the `try`; `generate_response` runs inside it, a
returned reply is appended as an assistant turn, and any raised exception `e`
is caught and appended as an assistant turn `f"Error: {e}"`. -/
def chatPhase (st : AppState) (i : RerunInput) : AppState × List Event :=
  match i.prompt with
  | none => (st, [])
  | some p =>
    if p = "" then (st, [])
    else
      let ms := st.messages ++ [⟨"user", p⟩]
      let ev := [Event.generate st.assistant.toolResources i.outcome]
      match generate_response i.outcome with
      | .ok r => ({ st with messages := ms ++ [⟨"assistant", r⟩] }, ev)
      | .error e => ({ st with messages := ms ++ [⟨"assistant", "Error: " ++ e⟩] }, ev)

/-- One full rerun of the script, in program order: session-state setup, role
reconciliation, vector-store setup, chat handling.  `none` is a fresh session. -/
def runScript (s : Option AppState) (i : RerunInput) : AppState × List Event :=
  let r0 := initPhase s i
  let r1 := rolePhase r0.1 i
  let r2 := vsPhase r1.1 i
  let r3 := chatPhase r2.1 i
  (r3.1, r0.2 ++ r1.2 ++ r2.2 ++ r3.2)

/-- The session states the app can be in after at least one rerun. -/
inductive Reachable : AppState → Prop where
  | init (i : RerunInput) : Reachable (runScript none i).1
  | step (s : AppState) (i : RerunInput) : Reachable s → Reachable (runScript (some s) i).1

/-- How many `assistants.update` instruction-push calls a trace holds. -/
def countInstructionUpdates (evs : List Event) : Nat :=
  (evs.filter fun e => match e with | .updateInstructions _ _ => true | _ => false).length

/-- How many `vector_stores.create` calls a trace holds. -/
def countCreates (evs : List Event) : Nat :=
  (evs.filter fun e => match e with | .createVS _ => true | _ => false).length

/-- How many `file_batches.upload_and_poll` calls a trace holds. -/
def countUploads (evs : List Event) : Nat :=
  (evs.filter fun e => match e with | .uploadBatch _ _ => true | _ => false).length

/-- A concrete successful remote outcome, for instantiating theorems. -/
def sampleOutcome : RemoteOutcome := .success [⟨["Reply text."]⟩]

/-- A concrete rerun input: Applicant selected, no chat submission, no
persisted id, both folders present. -/
def sampleInput : RerunInput :=
  { role_selection := "Applicant"
    prompt := none
    newAssistantId := "asst_1"
    storedId := none
    retrieveOk := false
    newVsId := "vs_new"
    letters := some ["a.pdf", "b.pdf"]
    ordinances := some ["ADUHandbookUpdate.pdf", "c.pdf"]
    outcome := sampleOutcome }

/-- A concrete session state before vector-store setup. -/
def sampleState : AppState :=
  { vector_store := none
    current_role := "Applicant"
    assistant := { id := "asst_1", instructions := applicantInstructions, toolResources := none }
    messages := [greetingTurn] }

/-- `sampleInput` with a chat submission whose reply cycle raises. -/
def samplePromptFail : RerunInput :=
  { sampleInput with prompt := some "hello", outcome := .failure "boom" }

/-- `sampleInput` with a persisted vector-store id in secrets. -/
def sampleStored : RerunInput :=
  { sampleInput with storedId := some "vs_persisted" }

/-- `sampleInput` with both document folders missing. -/
def sampleNoFolders : RerunInput :=
  { sampleInput with letters := none, ordinances := none, storedId := none }

end ADU

namespace ADU

/-! Helper lemmas about strings, the document resolver, and the rerun step. -/

theorem str_append_left_cancel {a b c : String} (h : a ++ b = a ++ c) : b = c := by
  have hd := congrArg String.data h
  simp only [String.data_append] at hd
  exact String.ext (List.append_cancel_left hd)

theorem letters_ne_ord (f g : String) : joinPath LETTERS_DIR f ≠ joinPath ORDINANCES_DIR g := by
  intro h
  have hd := congrArg String.data h
  simp only [joinPath, LETTERS_DIR, ORDINANCES_DIR, String.data_append] at hd
  have h5 := congrArg (fun l : List Char => l[5]?) hd
  simp [List.getElem?_append] at h5

theorem pdf_paths_eq_parts (letters ordinances : Option (List String)) :
    get_pdf_file_paths letters ordinances =
      statewidePart ordinances ++ lettersPart letters ++ otherOrdinancesPart ordinances := by
  cases ordinances with
  | none => simp [get_pdf_file_paths, statewidePart, otherOrdinancesPart, lettersPart]
  | some files =>
    by_cases h : statewide_file ∈ files <;>
      simp [get_pdf_file_paths, statewidePart, otherOrdinancesPart, lettersPart, h]

theorem sw_not_mem_letters (letters : Option (List String)) :
    joinPath ORDINANCES_DIR statewide_file ∉ lettersPart letters := by
  cases letters with
  | none => simp [lettersPart]
  | some fs =>
    simp only [lettersPart, List.mem_map, not_exists]
    rintro f ⟨-, hf⟩
    exact letters_ne_ord f statewide_file hf

theorem sw_not_mem_other (ordinances : Option (List String)) :
    joinPath ORDINANCES_DIR statewide_file ∉ otherOrdinancesPart ordinances := by
  cases ordinances with
  | none => simp [otherOrdinancesPart]
  | some fs =>
    simp only [otherOrdinancesPart, List.mem_map, not_exists]
    rintro f ⟨hmem, hf⟩
    have hprop := List.of_mem_filter hmem
    simp only [Bool.and_eq_true, decide_eq_true_eq] at hprop
    exact hprop.2 (str_append_left_cancel hf)

theorem initPhase_some (st : AppState) (i : RerunInput) : initPhase (some st) i = (st, []) := rfl

theorem initPhase_none (i : RerunInput) :
    initPhase none i =
      ({ vector_store := none
         current_role := i.role_selection
         assistant :=
           { id := i.newAssistantId
             instructions := get_instructions i.role_selection
             toolResources := none }
         messages := [greetingTurn] },
       [Event.createAssistant i.newAssistantId]) := rfl

theorem rolePhase_eq (st : AppState) (i : RerunInput) (h : st.current_role = i.role_selection) :
    rolePhase st i = (st, []) := by
  simp [rolePhase, h]

theorem rolePhase_ne (st : AppState) (i : RerunInput) (h : st.current_role ≠ i.role_selection) :
    rolePhase st i =
      ({ st with
          assistant := { st.assistant with instructions := get_instructions i.role_selection }
          current_role := i.role_selection },
       [Event.updateInstructions st.assistant.id (get_instructions i.role_selection)]) := by
  simp [rolePhase, h]

theorem rolePhase_vector_store (st : AppState) (i : RerunInput) :
    (rolePhase st i).1.vector_store = st.vector_store := by
  unfold rolePhase; split <;> rfl

theorem rolePhase_assistant_id (st : AppState) (i : RerunInput) :
    (rolePhase st i).1.assistant.id = st.assistant.id := by
  unfold rolePhase; split <;> rfl

theorem rolePhase_toolResources (st : AppState) (i : RerunInput) :
    (rolePhase st i).1.assistant.toolResources = st.assistant.toolResources := by
  unfold rolePhase; split <;> rfl

theorem rolePhase_messages (st : AppState) (i : RerunInput) :
    (rolePhase st i).1.messages = st.messages := by
  unfold rolePhase; split <;> rfl

theorem rolePhase_current_role (st : AppState) (i : RerunInput) :
    (rolePhase st i).1.current_role = i.role_selection := by
  unfold rolePhase; split
  · rfl
  · next h => simpa using not_ne_iff.mp h

theorem vsPhase_skip (st : AppState) (i : RerunInput) (v : String)
    (h : st.vector_store = some v) : vsPhase st i = (st, []) := by
  unfold vsPhase; rw [h]

theorem vsPhase_fetch_ok (st : AppState) (i : RerunInput) (sid : String)
    (h : st.vector_store = none) (h1 : i.storedId = some sid) (h2 : i.retrieveOk = true) :
    vsPhase st i =
      ({ st with
          vector_store := some sid
          assistant := { st.assistant with toolResources := some sid } },
       [Event.retrieveVS sid true, Event.attachVS st.assistant.id sid]) := by
  unfold vsPhase; rw [h, h1, h2]; rfl

theorem vsPhase_fetch_fail (st : AppState) (i : RerunInput) (sid : String)
    (h : st.vector_store = none) (h1 : i.storedId = some sid) (h2 : i.retrieveOk = false) :
    vsPhase st i =
      ({ st with
          vector_store := some i.newVsId
          assistant := { st.assistant with toolResources := some i.newVsId } },
       Event.retrieveVS sid false :: Event.createVS i.newVsId ::
         ((if get_pdf_file_paths i.letters i.ordinances ≠ [] then
             [Event.uploadBatch i.newVsId (get_pdf_file_paths i.letters i.ordinances)]
           else []) ++ [Event.attachVS st.assistant.id i.newVsId])) := by
  unfold vsPhase; rw [h, h1, h2]; rfl

theorem vsPhase_no_stored (st : AppState) (i : RerunInput)
    (h : st.vector_store = none) (h1 : i.storedId = none) :
    vsPhase st i =
      ({ st with
          vector_store := some i.newVsId
          assistant := { st.assistant with toolResources := some i.newVsId } },
       Event.createVS i.newVsId ::
         ((if get_pdf_file_paths i.letters i.ordinances ≠ [] then
             [Event.uploadBatch i.newVsId (get_pdf_file_paths i.letters i.ordinances)]
           else []) ++ [Event.attachVS st.assistant.id i.newVsId])) := by
  unfold vsPhase; rw [h, h1]; rfl

theorem chatPhase_none (st : AppState) (i : RerunInput) (h : i.prompt = none) :
    chatPhase st i = (st, []) := by
  unfold chatPhase; rw [h]

theorem chatPhase_empty (st : AppState) (i : RerunInput) (h : i.prompt = some "") :
    chatPhase st i = (st, []) := by
  unfold chatPhase; rw [h]; rfl

theorem chatPhase_ok (st : AppState) (i : RerunInput) (p r : String)
    (h : i.prompt = some p) (hp : p ≠ "") (hg : generate_response i.outcome = .ok r) :
    chatPhase st i =
      ({ st with messages := (st.messages ++ [⟨"user", p⟩]) ++ [⟨"assistant", r⟩] },
       [Event.generate st.assistant.toolResources i.outcome]) := by
  unfold chatPhase; rw [h]; simp [hp, hg]

theorem chatPhase_err (st : AppState) (i : RerunInput) (p e : String)
    (h : i.prompt = some p) (hp : p ≠ "") (hg : generate_response i.outcome = .error e) :
    chatPhase st i =
      ({ st with messages := (st.messages ++ [⟨"user", p⟩]) ++ [⟨"assistant", "Error: " ++ e⟩] },
       [Event.generate st.assistant.toolResources i.outcome]) := by
  unfold chatPhase; rw [h]; simp [hp, hg]

theorem runScript_eq (s : Option AppState) (i : RerunInput) :
    runScript s i =
      ((chatPhase (vsPhase (rolePhase (initPhase s i).1 i).1 i).1 i).1,
       (initPhase s i).2 ++ (rolePhase (initPhase s i).1 i).2 ++
         (vsPhase (rolePhase (initPhase s i).1 i).1 i).2 ++
         (chatPhase (vsPhase (rolePhase (initPhase s i).1 i).1 i).1 i).2) := rfl

theorem countInstructionUpdates_append (a b : List Event) :
    countInstructionUpdates (a ++ b) = countInstructionUpdates a + countInstructionUpdates b := by
  simp [countInstructionUpdates, List.filter_append]

theorem countCreates_append (a b : List Event) :
    countCreates (a ++ b) = countCreates a + countCreates b := by
  simp [countCreates, List.filter_append]

theorem countUploads_append (a b : List Event) :
    countUploads (a ++ b) = countUploads a + countUploads b := by
  simp [countUploads, List.filter_append]

theorem initPhase_no_gen (s : Option AppState) (i : RerunInput) (tr : Option String)
    (o : RemoteOutcome) : Event.generate tr o ∉ (initPhase s i).2 := by
  cases s <;> simp [initPhase]

theorem rolePhase_trace (st : AppState) (i : RerunInput) :
    countInstructionUpdates (rolePhase st i).2 =
      (if st.current_role = i.role_selection then 0 else 1) ∧
    countCreates (rolePhase st i).2 = 0 ∧
    countUploads (rolePhase st i).2 = 0 ∧
    (∀ tr o, Event.generate tr o ∉ (rolePhase st i).2) ∧
    (∀ a, Event.createAssistant a ∉ (rolePhase st i).2) := by
  by_cases h : st.current_role = i.role_selection
  · rw [rolePhase_eq st i h]
    simp [countInstructionUpdates, countCreates, countUploads, h]
  · rw [rolePhase_ne st i h]
    simp [countInstructionUpdates, countCreates, countUploads, h]

theorem vsPhase_state (st : AppState) (i : RerunInput) :
    (vsPhase st i).1.current_role = st.current_role ∧
    (vsPhase st i).1.assistant.id = st.assistant.id ∧
    (vsPhase st i).1.assistant.instructions = st.assistant.instructions ∧
    (vsPhase st i).1.messages = st.messages := by
  cases hv : st.vector_store with
  | some v => rw [vsPhase_skip st i v hv]; exact ⟨rfl, rfl, rfl, rfl⟩
  | none =>
    cases hs : i.storedId with
    | some sid =>
      cases hr : i.retrieveOk
      · rw [vsPhase_fetch_fail st i sid hv hs hr]; exact ⟨rfl, rfl, rfl, rfl⟩
      · rw [vsPhase_fetch_ok st i sid hv hs hr]; exact ⟨rfl, rfl, rfl, rfl⟩
    | none => rw [vsPhase_no_stored st i hv hs]; exact ⟨rfl, rfl, rfl, rfl⟩

theorem vsPhase_trace (st : AppState) (i : RerunInput) :
    countInstructionUpdates (vsPhase st i).2 = 0 ∧
    (∀ tr o, Event.generate tr o ∉ (vsPhase st i).2) ∧
    (∀ a, Event.createAssistant a ∉ (vsPhase st i).2) := by
  cases hv : st.vector_store with
  | some v =>
    rw [vsPhase_skip st i v hv]
    simp [countInstructionUpdates]
  | none =>
    cases hs : i.storedId with
    | some sid =>
      cases hr : i.retrieveOk
      · rw [vsPhase_fetch_fail st i sid hv hs hr]
        by_cases hf : get_pdf_file_paths i.letters i.ordinances = [] <;>
          simp [countInstructionUpdates, hf]
      · rw [vsPhase_fetch_ok st i sid hv hs hr]
        simp [countInstructionUpdates]
    | none =>
      rw [vsPhase_no_stored st i hv hs]
      by_cases hf : get_pdf_file_paths i.letters i.ordinances = [] <;>
        simp [countInstructionUpdates, hf]

theorem vsPhase_sets (st : AppState) (i : RerunInput) (h : st.vector_store = none) :
    ∃ v, (vsPhase st i).1.vector_store = some v ∧
      (vsPhase st i).1.assistant.toolResources = some v := by
  cases hs : i.storedId with
  | some sid =>
    cases hr : i.retrieveOk
    · rw [vsPhase_fetch_fail st i sid h hs hr]; exact ⟨i.newVsId, rfl, rfl⟩
    · rw [vsPhase_fetch_ok st i sid h hs hr]; exact ⟨sid, rfl, rfl⟩
  | none => rw [vsPhase_no_stored st i h hs]; exact ⟨i.newVsId, rfl, rfl⟩

theorem chatPhase_state (st : AppState) (i : RerunInput) :
    (chatPhase st i).1.vector_store = st.vector_store ∧
    (chatPhase st i).1.current_role = st.current_role ∧
    (chatPhase st i).1.assistant = st.assistant := by
  cases hp : i.prompt with
  | none => rw [chatPhase_none st i hp]; exact ⟨rfl, rfl, rfl⟩
  | some p =>
    by_cases hpe : p = ""
    · subst hpe; rw [chatPhase_empty st i hp]; exact ⟨rfl, rfl, rfl⟩
    · cases hg : generate_response i.outcome with
      | ok r => rw [chatPhase_ok st i p r hp hpe hg]; exact ⟨rfl, rfl, rfl⟩
      | error e => rw [chatPhase_err st i p e hp hpe hg]; exact ⟨rfl, rfl, rfl⟩

theorem chatPhase_trace (st : AppState) (i : RerunInput) :
    countInstructionUpdates (chatPhase st i).2 = 0 ∧
    countCreates (chatPhase st i).2 = 0 ∧
    countUploads (chatPhase st i).2 = 0 ∧
    (∀ a, Event.createAssistant a ∉ (chatPhase st i).2) ∧
    (∀ tr o, Event.generate tr o ∈ (chatPhase st i).2 →
      tr = st.assistant.toolResources ∧ o = i.outcome) := by
  cases hp : i.prompt with
  | none =>
    rw [chatPhase_none st i hp]
    simp [countInstructionUpdates, countCreates, countUploads]
  | some p =>
    by_cases hpe : p = ""
    · subst hpe; rw [chatPhase_empty st i hp]
      simp [countInstructionUpdates, countCreates, countUploads]
    · cases hg : generate_response i.outcome with
      | ok r =>
        rw [chatPhase_ok st i p r hp hpe hg]
        simp [countInstructionUpdates, countCreates, countUploads]
      | error e =>
        rw [chatPhase_err st i p e hp hpe hg]
        simp [countInstructionUpdates, countCreates, countUploads]

theorem chatPhase_messages_prefix (st : AppState) (i : RerunInput) :
    st.messages <+: (chatPhase st i).1.messages := by
  cases hp : i.prompt with
  | none => rw [chatPhase_none st i hp]
  | some p =>
    by_cases hpe : p = ""
    · subst hpe; rw [chatPhase_empty st i hp]
    · cases hg : generate_response i.outcome with
      | ok r =>
        rw [chatPhase_ok st i p r hp hpe hg]
        exact ⟨[⟨"user", p⟩] ++ [⟨"assistant", r⟩], by simp⟩
      | error e =>
        rw [chatPhase_err st i p e hp hpe hg]
        exact ⟨[⟨"user", p⟩] ++ [⟨"assistant", "Error: " ++ e⟩], by simp⟩

theorem runScript_messages_prefix (s : Option AppState) (i : RerunInput) :
    (initPhase s i).1.messages <+: (runScript s i).1.messages := by
  rw [runScript_eq]
  have h3 := chatPhase_messages_prefix (vsPhase (rolePhase (initPhase s i).1 i).1 i).1 i
  rwa [(vsPhase_state _ i).2.2.2, rolePhase_messages] at h3

theorem reachable_greeting (s : AppState) (hs : Reachable s) :
    s.messages.head? = some greetingTurn := by
  induction hs with
  | init i =>
    have hpre := runScript_messages_prefix none i
    rw [initPhase_none] at hpre
    obtain ⟨t, ht⟩ := hpre
    rw [← ht]; rfl
  | step s i hr ih =>
    have hpre := runScript_messages_prefix (some s) i
    rw [initPhase_some] at hpre
    obtain ⟨t, ht⟩ := hpre
    rw [← ht]
    show (s.messages ++ t).head? = some greetingTurn
    cases hm : s.messages with
    | nil => rw [hm] at ih; simp at ih
    | cons a l => rw [hm] at ih; simpa using ih

theorem runScript_keeps_vs (s : AppState) (i : RerunInput) (v : String)
    (hv : s.vector_store = some v) :
    (runScript (some s) i).1.vector_store = some v ∧
    (runScript (some s) i).1.assistant.toolResources = s.assistant.toolResources := by
  rw [runScript_eq, initPhase_some]
  have h1v : (rolePhase s i).1.vector_store = some v := by
    rw [rolePhase_vector_store]; exact hv
  rw [vsPhase_skip _ i v h1v]
  constructor
  · rw [(chatPhase_state _ i).1]; exact h1v
  · rw [(chatPhase_state _ i).2.2, rolePhase_toolResources]

theorem reachable_vs (s : AppState) (hs : Reachable s) :
    ∃ v, s.vector_store = some v ∧ s.assistant.toolResources = some v := by
  induction hs with
  | init i =>
    rw [runScript_eq]
    have h0 : (rolePhase (initPhase none i).1 i).1.vector_store = none := by
      rw [rolePhase_vector_store]; rfl
    obtain ⟨w, hw1, hw2⟩ := vsPhase_sets _ i h0
    exact ⟨w, by rw [(chatPhase_state _ i).1]; exact hw1,
           by rw [(chatPhase_state _ i).2.2]; exact hw2⟩
  | step s i hr ih =>
    obtain ⟨w, hw1, hw2⟩ := ih
    have hkeep := runScript_keeps_vs s i w hw1
    exact ⟨w, hkeep.1, by rw [hkeep.2]; exact hw2⟩

theorem runScript_gen_toolRes (s : Option AppState) (i : RerunInput) (tr : Option String)
    (o : RemoteOutcome) (hmem : Event.generate tr o ∈ (runScript s i).2) :
    tr = (vsPhase (rolePhase (initPhase s i).1 i).1 i).1.assistant.toolResources := by
  rw [runScript_eq] at hmem
  simp only [List.mem_append] at hmem
  rcases hmem with ((h | h) | h) | h
  · exact absurd h (initPhase_no_gen s i tr o)
  · exact absurd h ((rolePhase_trace _ i).2.2.2.1 tr o)
  · exact absurd h ((vsPhase_trace _ i).2.1 tr o)
  · exact ((chatPhase_trace _ i).2.2.2.2 tr o h).1

end ADU

namespace ADU

/-! The claims. -/

/-- C1, as stated, is false on the code: for a letters folder holding `a.pdf`
and an ordinances folder holding only `c.pdf`, the resolver returns the
letters path before the ordinances path, not the spec's
`[statewide?] + [other ordinances] + [letters]` order. -/
theorem C1_counterexample :
    get_pdf_file_paths (some ["a.pdf"]) (some ["c.pdf"]) =
      [joinPath LETTERS_DIR "a.pdf", joinPath ORDINANCES_DIR "c.pdf"] ∧
    get_pdf_file_paths (some ["a.pdf"]) (some ["c.pdf"]) ≠
      specClaimedOrder (some ["a.pdf"]) (some ["c.pdf"]) := by
  decide

/-- C1 (amended): for every pair of folder states the resolver's list is the
statewide ordinance file (if present), then all `.pdf` files of the letters
folder, then all other `.pdf` files of the ordinances folder — so every
letters-folder path precedes every non-statewide ordinances-folder path. -/
theorem C1_resolver_order (letters ordinances : Option (List String)) :
    get_pdf_file_paths letters ordinances =
      statewidePart ordinances ++ lettersPart letters ++ otherOrdinancesPart ordinances :=
  pdf_paths_eq_parts letters ordinances

/-- C2: when the remote run terminates successfully, a run with at least one
message returns the first message's primary text content stripped of leading
and trailing whitespace, and a run with zero messages returns exactly the
fallback string, as a non-error result. -/
theorem C2_generate_response_success (m : ThreadMessage) (rest : List ThreadMessage)
    (c : String) (cs : List String) (h : m.content = c :: cs) :
    generate_response (.success (m :: rest)) = .ok (pyStrip c) ∧
    generate_response (.success []) = .ok "No response received from the assistant." := by
  refine ⟨?_, rfl⟩
  simp [generate_response, h]

/-- C2 witness at a one-message run whose primary text is `"  hi "`. -/
theorem C2_witness :
    generate_response (.success [⟨["  hi "]⟩]) = .ok (pyStrip "  hi ") ∧
    generate_response (.success []) = .ok "No response received from the assistant." :=
  C2_generate_response_success ⟨["  hi "]⟩ [] "  hi " [] rfl

/-- C3: an error raised during the reply cycle is not caught inside
`generate_response` (it propagates as `Except.error`); the chat handler
appends an assistant turn `"Error: " ++ description` after the user turn, all
previously appended turns are kept, and the rerun completes normally. -/
theorem C3_error_turn_appended (s : AppState) (i : RerunInput) (d p : String)
    (ho : i.outcome = .failure d) (hp : i.prompt = some p) (hne : p ≠ "") :
    generate_response i.outcome = .error d ∧
    (runScript (some s) i).1.messages =
      s.messages ++ [⟨"user", p⟩, ⟨"assistant", "Error: " ++ d⟩] ∧
    s.messages <+: (runScript (some s) i).1.messages := by
  have hg : generate_response i.outcome = .error d := by rw [ho]; rfl
  have hm : (runScript (some s) i).1.messages =
      s.messages ++ [⟨"user", p⟩, ⟨"assistant", "Error: " ++ d⟩] := by
    rw [runScript_eq, initPhase_some, chatPhase_err _ i p d hp hne hg]
    show ((vsPhase (rolePhase s i).1 i).1.messages ++ _) ++ _ = _
    rw [(vsPhase_state _ i).2.2.2, rolePhase_messages]
    simp
  exact ⟨hg, hm, by rw [hm]; exact ⟨_, rfl⟩⟩

/-- C3 witness: a rerun whose reply cycle raises `"boom"` on the sample
session state. -/
theorem C3_witness :
    generate_response samplePromptFail.outcome = .error "boom" ∧
    (runScript (some sampleState) samplePromptFail).1.messages =
      sampleState.messages ++ [⟨"user", "hello"⟩, ⟨"assistant", "Error: " ++ "boom"⟩] ∧
    sampleState.messages <+: (runScript (some sampleState) samplePromptFail).1.messages :=
  C3_error_turn_appended sampleState samplePromptFail "boom" "hello" rfl rfl (by decide)

/-- C4: whenever the ordinances folder contains the reserved statewide
filename, the resolver places that file's path at index 0, regardless of the
other PDF files of either folder, and that path occurs exactly once. -/
theorem C4_statewide_first (letters : Option (List String)) (files : List String)
    (h : statewide_file ∈ files) :
    (get_pdf_file_paths letters (some files)).head? =
        some (joinPath ORDINANCES_DIR statewide_file) ∧
    (get_pdf_file_paths letters (some files)).count (joinPath ORDINANCES_DIR statewide_file)
      = 1 := by
  have hdec := pdf_paths_eq_parts letters (some files)
  have hsw : statewidePart (some files) = [joinPath ORDINANCES_DIR statewide_file] := by
    simp [statewidePart, h]
  rw [hdec, hsw]
  refine ⟨rfl, ?_⟩
  simp [List.count_append, List.count_eq_zero.mpr (sw_not_mem_letters letters),
        List.count_eq_zero.mpr (sw_not_mem_other (some files))]

/-- C4 witness at `{a.pdf, b.pdf}` letters and `{ADUHandbookUpdate.pdf, c.pdf}`
ordinances. -/
theorem C4_witness :
    ((get_pdf_file_paths (some ["a.pdf", "b.pdf"]) (some ["ADUHandbookUpdate.pdf", "c.pdf"])).head?
        = some (joinPath ORDINANCES_DIR statewide_file)) ∧
    (get_pdf_file_paths (some ["a.pdf", "b.pdf"]) (some ["ADUHandbookUpdate.pdf", "c.pdf"])).count
        (joinPath ORDINANCES_DIR statewide_file) = 1 :=
  C4_statewide_first (some ["a.pdf", "b.pdf"]) ["ADUHandbookUpdate.pdf", "c.pdf"] (by decide)

/-- C5: one rerun makes a remote instruction-update call exactly when the
selected role differs from the recorded role (zero calls otherwise), the
assistant keeps its identifier (mutated in place), no assistant is created,
and the newly selected role is recorded — so switching Applicant to Planner
and back makes exactly two calls, and reselecting the same role makes zero. -/
theorem C5_role_reconciliation (s : AppState) (i : RerunInput) :
    countInstructionUpdates (runScript (some s) i).2 =
      (if s.current_role = i.role_selection then 0 else 1) ∧
    (runScript (some s) i).1.assistant.id = s.assistant.id ∧
    (runScript (some s) i).1.current_role = i.role_selection ∧
    (∀ a, Event.createAssistant a ∉ (runScript (some s) i).2) := by
  refine ⟨?_, ?_, ?_, ?_⟩
  · rw [runScript_eq, initPhase_some]
    rw [countInstructionUpdates_append, countInstructionUpdates_append,
        countInstructionUpdates_append]
    rw [(rolePhase_trace s i).1, (vsPhase_trace _ i).1, (chatPhase_trace _ i).1]
    simp [countInstructionUpdates]
  · rw [runScript_eq, initPhase_some, (chatPhase_state _ i).2.2, (vsPhase_state _ i).2.1,
        rolePhase_assistant_id]
  · rw [runScript_eq, initPhase_some, (chatPhase_state _ i).2.1, (vsPhase_state _ i).1,
        rolePhase_current_role]
  · intro a ha
    rw [runScript_eq, initPhase_some] at ha
    simp only [List.nil_append, List.mem_append] at ha
    rcases ha with (h | h) | h
    · exact (rolePhase_trace s i).2.2.2.2 a h
    · exact (vsPhase_trace _ i).2.2 a h
    · exact (chatPhase_trace _ i).2.2.2.1 a h

/-- C6: with a persisted index id in configuration, a successful fetch reuses
that index with zero creates and zero uploads; a failed fetch is surfaced
(the failing retrieve call is in the trace) but not fatal: the rerun
completes with exactly one created index and one batch upload when the
resolved document set is non-empty (none when it is empty). -/
theorem C6_vector_store_reuse_or_create (s : AppState) (i : RerunInput) (sid : String)
    (hvs : s.vector_store = none) (hsid : i.storedId = some sid) :
    (i.retrieveOk = true →
      (runScript (some s) i).1.vector_store = some sid ∧
      countCreates (runScript (some s) i).2 = 0 ∧
      countUploads (runScript (some s) i).2 = 0) ∧
    (i.retrieveOk = false →
      Event.retrieveVS sid false ∈ (runScript (some s) i).2 ∧
      (runScript (some s) i).1.vector_store = some i.newVsId ∧
      countCreates (runScript (some s) i).2 = 1 ∧
      countUploads (runScript (some s) i).2 =
        (if get_pdf_file_paths i.letters i.ordinances = [] then 0 else 1)) := by
  have hv1 : (rolePhase s i).1.vector_store = none := by
    rw [rolePhase_vector_store]; exact hvs
  constructor
  · intro hr
    rw [runScript_eq, initPhase_some, vsPhase_fetch_ok _ i sid hv1 hsid hr]
    refine ⟨?_, ?_, ?_⟩
    · rw [(chatPhase_state _ i).1]
    · rw [countCreates_append, countCreates_append, countCreates_append,
          (rolePhase_trace s i).2.1, (chatPhase_trace _ i).2.1]
      simp [countCreates]
    · rw [countUploads_append, countUploads_append, countUploads_append,
          (rolePhase_trace s i).2.2.1, (chatPhase_trace _ i).2.2.1]
      simp [countUploads]
  · intro hr
    rw [runScript_eq, initPhase_some, vsPhase_fetch_fail _ i sid hv1 hsid hr]
    refine ⟨?_, ?_, ?_, ?_⟩
    · simp [List.mem_append]
    · rw [(chatPhase_state _ i).1]
    · rw [countCreates_append, countCreates_append, countCreates_append,
          (rolePhase_trace s i).2.1, (chatPhase_trace _ i).2.1]
      by_cases hf : get_pdf_file_paths i.letters i.ordinances = [] <;>
        simp [countCreates, hf]
    · rw [countUploads_append, countUploads_append, countUploads_append,
          (rolePhase_trace s i).2.2.1, (chatPhase_trace _ i).2.2.1]
      by_cases hf : get_pdf_file_paths i.letters i.ordinances = [] <;>
        simp [countUploads, hf]

/-- C6 witness: a session with a persisted id `vs_persisted` whose fetch
fails. -/
theorem C6_witness :
    (sampleStored.retrieveOk = true →
      (runScript (some sampleState) sampleStored).1.vector_store = some "vs_persisted" ∧
      countCreates (runScript (some sampleState) sampleStored).2 = 0 ∧
      countUploads (runScript (some sampleState) sampleStored).2 = 0) ∧
    (sampleStored.retrieveOk = false →
      Event.retrieveVS "vs_persisted" false ∈ (runScript (some sampleState) sampleStored).2 ∧
      (runScript (some sampleState) sampleStored).1.vector_store = some sampleStored.newVsId ∧
      countCreates (runScript (some sampleState) sampleStored).2 = 1 ∧
      countUploads (runScript (some sampleState) sampleStored).2 =
        (if get_pdf_file_paths sampleStored.letters sampleStored.ordinances = [] then 0
         else 1)) :=
  C6_vector_store_reuse_or_create sampleState sampleStored "vs_persisted" rfl rfl

/-- C7: a missing letters folder and a missing ordinances folder each
contribute zero files (the resolver raises no error), both missing give the
empty list, and the vector-store setup still produces a valid index with
exactly one create call and zero upload calls. -/
theorem C7_missing_folders (s : AppState) (i : RerunInput)
    (hvs : s.vector_store = none) (hsid : i.storedId = none)
    (hl : i.letters = none) (ho : i.ordinances = none) :
    (∀ o, get_pdf_file_paths none o = statewidePart o ++ otherOrdinancesPart o) ∧
    (∀ l, get_pdf_file_paths l none = lettersPart l) ∧
    get_pdf_file_paths none none = [] ∧
    (runScript (some s) i).1.vector_store = some i.newVsId ∧
    countCreates (runScript (some s) i).2 = 1 ∧
    countUploads (runScript (some s) i).2 = 0 := by
  have hv1 : (rolePhase s i).1.vector_store = none := by
    rw [rolePhase_vector_store]; exact hvs
  have hempty : get_pdf_file_paths i.letters i.ordinances = [] := by rw [hl, ho]; rfl
  refine ⟨?_, ?_, rfl, ?_, ?_, ?_⟩
  · intro o; rw [pdf_paths_eq_parts]; simp [lettersPart]
  · intro l; rw [pdf_paths_eq_parts]; simp [statewidePart, otherOrdinancesPart]
  · rw [runScript_eq, initPhase_some, vsPhase_no_stored _ i hv1 hsid,
        (chatPhase_state _ i).1]
  · rw [runScript_eq, initPhase_some, vsPhase_no_stored _ i hv1 hsid,
        countCreates_append, countCreates_append, countCreates_append,
        (rolePhase_trace s i).2.1, (chatPhase_trace _ i).2.1]
    simp [countCreates, hempty]
  · rw [runScript_eq, initPhase_some, vsPhase_no_stored _ i hv1 hsid,
        countUploads_append, countUploads_append, countUploads_append,
        (rolePhase_trace s i).2.2.1, (chatPhase_trace _ i).2.2.1]
    simp [countUploads, hempty]

/-- C7 witness: both folders missing, no persisted id. -/
theorem C7_witness :
    (∀ o, get_pdf_file_paths none o = statewidePart o ++ otherOrdinancesPart o) ∧
    (∀ l, get_pdf_file_paths l none = lettersPart l) ∧
    get_pdf_file_paths none none = [] ∧
    (runScript (some sampleState) sampleNoFolders).1.vector_store =
      some sampleNoFolders.newVsId ∧
    countCreates (runScript (some sampleState) sampleNoFolders).2 = 1 ∧
    countUploads (runScript (some sampleState) sampleNoFolders).2 = 0 :=
  C7_missing_folders sampleState sampleNoFolders rfl rfl rfl rfl

/-- C8: on every rerun from a reachable session state, any reply-generation
call sees the assistant's file_search tool configuration referencing the
session's vector-store handle, which the rerun leaves unchanged; and on the
first (fresh-session) rerun any reply-generation call already sees the newly
attached handle, the one the session then keeps. -/
theorem C8_attach_before_generate (s : AppState) (i : RerunInput) (hs : Reachable s) :
    (∀ tr o, Event.generate tr o ∈ (runScript (some s) i).2 →
        ∃ v, tr = some v ∧ s.vector_store = some v ∧
          (runScript (some s) i).1.vector_store = some v) ∧
    (runScript (some s) i).1.vector_store = s.vector_store ∧
    (∀ (j : RerunInput) tr o, Event.generate tr o ∈ (runScript none j).2 →
        ∃ v, tr = some v ∧ (runScript none j).1.vector_store = some v) := by
  obtain ⟨v, hv, htr⟩ := reachable_vs s hs
  have hkeep := runScript_keeps_vs s i v hv
  refine ⟨?_, by rw [hkeep.1, hv], ?_⟩
  · intro tr o hmem
    have hteq := runScript_gen_toolRes (some s) i tr o hmem
    have h1v : (rolePhase s i).1.vector_store = some v := by
      rw [rolePhase_vector_store]; exact hv
    rw [initPhase_some, vsPhase_skip _ i v h1v, rolePhase_toolResources] at hteq
    exact ⟨v, by rw [hteq]; exact htr, hv, hkeep.1⟩
  · intro j tr o hmem
    have hteq := runScript_gen_toolRes none j tr o hmem
    have h0 : (rolePhase (initPhase none j).1 j).1.vector_store = none := by
      rw [rolePhase_vector_store]; rfl
    obtain ⟨w, hw1, hw2⟩ := vsPhase_sets _ j h0
    refine ⟨w, by rw [hteq]; exact hw2, ?_⟩
    rw [runScript_eq, (chatPhase_state _ j).1]
    exact hw1

/-- C8 witness at the state reached by one fresh rerun on the sample input. -/
theorem C8_witness :
    (∀ tr o, Event.generate tr o ∈
        (runScript (some (runScript none sampleInput).1) sampleInput).2 →
        ∃ v, tr = some v ∧ (runScript none sampleInput).1.vector_store = some v ∧
          (runScript (some (runScript none sampleInput).1) sampleInput).1.vector_store
            = some v) ∧
    (runScript (some (runScript none sampleInput).1) sampleInput).1.vector_store =
      (runScript none sampleInput).1.vector_store ∧
    (∀ (j : RerunInput) tr o, Event.generate tr o ∈ (runScript none j).2 →
        ∃ v, tr = some v ∧ (runScript none j).1.vector_store = some v) :=
  C8_attach_before_generate (runScript none sampleInput).1 sampleInput
    (Reachable.init sampleInput)

/-- C9: a fresh session seeds the transcript with exactly the one assistant
greeting turn before any user input; on every rerun from a reachable state
the old transcript is a prefix of the new one (turns are only appended, on
every path including the error path), and a reachable transcript is never
empty — its first turn is the greeting. -/
theorem C9_transcript_append_only (s : AppState) (i : RerunInput) (hs : Reachable s) :
    (initPhase none i).1.messages = [greetingTurn] ∧
    s.messages <+: (runScript (some s) i).1.messages ∧
    s.messages.head? = some greetingTurn ∧
    s.messages ≠ [] := by
  refine ⟨rfl, ?_, reachable_greeting s hs, ?_⟩
  · have h := runScript_messages_prefix (some s) i
    rwa [initPhase_some] at h
  · intro hnil
    have h := reachable_greeting s hs
    rw [hnil] at h
    simp at h

/-- C9 witness at the state reached by one fresh rerun on the sample input. -/
theorem C9_witness :
    ((initPhase none sampleInput).1.messages = [greetingTurn]) ∧
    (runScript none sampleInput).1.messages <+:
      (runScript (some (runScript none sampleInput).1) sampleInput).1.messages ∧
    (runScript none sampleInput).1.messages.head? = some greetingTurn ∧
    (runScript none sampleInput).1.messages ≠ [] :=
  C9_transcript_append_only (runScript none sampleInput).1 sampleInput
    (Reachable.init sampleInput)

/-- C10: get_instructions is total on strings — it returns the Applicant text
at `"Applicant"`, and the Planner text at every other string, including
invalid role values, rather than failing. -/
theorem C10_get_instructions_total (r : String) (h : r ≠ "Applicant") :
    get_instructions "Applicant" = applicantInstructions ∧
    get_instructions r = plannerInstructions :=
  ⟨rfl, by simp [get_instructions, h]⟩

/-- C10 witness at `"Planner"`. -/
theorem C10_witness :
    get_instructions "Applicant" = applicantInstructions ∧
    get_instructions "Planner" = plannerInstructions :=
  C10_get_instructions_total "Planner" (by decide)

end ADU
